import Mathlib

/-!
Verification of the agent turn-loop and action-dispatch protocol of the
`openai-computeruse-example` repository (`openai.go`, `browser.go`).

The embedding is shallow: the Go data structures become Lean structures,
the external collaborators (the HTTP client `Responses` and the go-rod
browser) become records of pure functions over an abstract browser-state
type `σ`, and the loop `BrowserUse` becomes a fuel-indexed recursion that,
besides the Go function's return value (modelled by `ExitKind`/`goReturn`),
also produces a trace of the observable events (requests sent, actions
dispatched, browser opened/closed) so that ordering and resource-release
properties can be stated.
-/

namespace CompUse

/-- `Action` from `openai.go`: the kind-tagged action payload of a response
output item (fields `Type, Keys, Button, Text, X, Y, ScrollX, ScrollY`). -/
structure Action where
  type : String
  keys : List String
  button : String
  text : String
  x : Int
  y : Int
  scrollX : Int
  scrollY : Int
  deriving DecidableEq, Repr

/-- `SafetyCheck` from `openai.go`. -/
structure SafetyCheck where
  id : String
  code : String
  message : String
  deriving DecidableEq, Repr

/-- `ComputerOutput` from `openai.go`: the observation sent back to the
service (screenshot data URL plus current page URL). -/
structure ComputerOutput where
  type : String
  imageURL : String
  currentURL : String
  deriving DecidableEq, Repr

/-- `OutputItem` from `openai.go`.  `Content` is `[]any` in Go and is used
only through `o.Content[0]` rendered with `fmt.Sprint`; its elements are
modelled as strings.  `none` models a nil slice, `some []` a non-nil empty
slice (Go distinguishes them via `o.Content != nil`). -/
structure OutputItem where
  type : String
  id : String
  callID : String
  status : String
  action : Option Action
  role : String
  content : Option (List String)
  pendingSafetyChecks : List SafetyCheck
  deriving DecidableEq, Repr

/-- The fields of `Response` from `openai.go` that the loop reads
(`response.ID` and `response.Output`); the remaining fields are never
inspected by `BrowserUse`. -/
structure Response where
  id : String
  output : List OutputItem
  deriving DecidableEq, Repr

/-- `Input` from `openai.go`: one input item of a request.  Absent fields
keep their Go zero values (`""` / nil). -/
structure Input where
  type : String
  callID : String
  output : Option ComputerOutput
  role : String
  content : String
  deriving DecidableEq, Repr

/-- The physical keys of `github.com/go-rod/rod/lib/input` used by
`Browser.Keypress` in `browser.go`. -/
inductive PhysKey where
  | enter | delete | tab | escape
  | arrowLeft | arrowRight | arrowUp | arrowDown
  | pageUp | pageDown
  deriving DecidableEq, Repr

/-- ASCII lowercasing of one character, as `strings.ToLower` acts on the
ASCII key names involved. -/
def lowerChar (c : Char) : Char :=
  if 'A' ≤ c ∧ c ≤ 'Z' then Char.ofNat (c.toNat + 32) else c

/-- `strings.ToLower` (Go standard library, external collaborator),
restricted to its ASCII behaviour. -/
def lowerString (s : String) : String := String.mk (s.toList.map lowerChar)

/-- The key-name translation switch of `Browser.Keypress` (`browser.go`
lines 62-87): the name is lowercased and compared against the supported
set; `none` models the default branch (log `key ... is not implemented`
and continue). -/
def keyLookup (key : String) : Option PhysKey :=
  let k := lowerString key
  if k = "enter" then some .enter
  else if k = "return" then some .enter
  else if k = "delete" then some .delete
  else if k = "tab" then some .tab
  else if k = "escape" then some .escape
  else if k = "left" then some .arrowLeft
  else if k = "right" then some .arrowRight
  else if k = "up" then some .arrowUp
  else if k = "down" then some .arrowDown
  else if k = "page_up" then some .pageUp
  else if k = "page_down" then some .pageDown
  else none

/-- The primitive browser effects performed by the dispatcher, used to
state that a given action performs (or does not perform) primitives. -/
inductive PrimEvent where
  | typed (text : String)
  | clicked (x y : Int) (button : String)
  | scrolled (x y dx dy : Int)
  | pressed (k : PhysKey)
  | keyNotImplemented (key : String)
  | slept
  deriving DecidableEq, Repr

/-- The Browser Capability Provider (go-rod, external collaborator) as pure
state transformers over an abstract page state `σ`.  `screenshot` may fail
(Go `Screenshot() ([]byte, error)`); `getCurrentUrl` is total (Go uses
`MustInfo`, which cannot return an error value). -/
structure BrowserEnv (σ : Type) where
  typeText : String → σ → σ
  click : Int → Int → String → σ → σ
  scroll : Int → Int → Int → Int → σ → σ
  press : PhysKey → σ → σ
  screenshot : σ → Except String (List Nat)
  getCurrentUrl : σ → String

/-- State effect of `Browser.Keypress` (`browser.go`): per key, press the
translated physical key, or skip the key when the translation fails. -/
def keypressState {σ : Type} (env : BrowserEnv σ) : List String → σ → σ
  | [], s => s
  | k :: rest, s =>
    match keyLookup k with
    | some pk => keypressState env rest (env.press pk s)
    | none => keypressState env rest s

/-- Primitive-event projection of the same `Browser.Keypress` loop:
recognized names emit a key press, unrecognized names emit only the
`not implemented` log line and the loop continues. -/
def keypressPrims : List String → List PrimEvent
  | [] => []
  | k :: rest =>
    match keyLookup k with
    | some pk => .pressed pk :: keypressPrims rest
    | none => .keyNotImplemented k :: keypressPrims rest

/-- State effect of the action switch in `computerCall` (`openai.go` lines
347-360): `screenshot` and `wait` mutate nothing; an unmatched kind falls
through the switch (no default branch) and mutates nothing. -/
def actionStepState {σ : Type} (env : BrowserEnv σ) (a : Action) (s : σ) : σ :=
  if a.type = "screenshot" then s
  else if a.type = "type" then env.typeText a.text s
  else if a.type = "click" then env.click a.x a.y a.button s
  else if a.type = "scroll" then env.scroll a.x a.y a.scrollX a.scrollY s
  else if a.type = "keypress" then keypressState env a.keys s
  else if a.type = "wait" then s
  else s

/-- Primitive-event projection of the same switch. -/
def actionPrims (a : Action) : List PrimEvent :=
  if a.type = "screenshot" then []
  else if a.type = "type" then [.typed a.text]
  else if a.type = "click" then [.clicked a.x a.y a.button]
  else if a.type = "scroll" then [.scrolled a.x a.y a.scrollX a.scrollY]
  else if a.type = "keypress" then keypressPrims a.keys
  else if a.type = "wait" then [.slept]
  else []

/-- The base64 alphabet of `encoding/base64.StdEncoding`. -/
def base64Table : List Char :=
  "ABCDEFGHIJKLMNOPQRSTUVWXYZabcdefghijklmnopqrstuvwxyz0123456789+/".toList

/-- One base64 digit. -/
def base64Digit (n : Nat) : Char := base64Table.getD n '?'

/-- Standard base64 of a byte list (`encoding/base64.StdEncoding.EncodeToString`). -/
def base64Encode : List Nat → String
  | [] => ""
  | [a] =>
    String.mk [base64Digit (a % 256 / 4), base64Digit (a % 4 * 16), '=', '=']
  | [a, b] =>
    String.mk [base64Digit (a % 256 / 4), base64Digit (a % 4 * 16 + b % 256 / 16),
      base64Digit (b % 16 * 4), '=']
  | a :: b :: c :: rest =>
    String.mk [base64Digit (a % 256 / 4), base64Digit (a % 4 * 16 + b % 256 / 16),
      base64Digit (b % 16 * 4 + c % 256 / 64), base64Digit (c % 256 % 64)]
      ++ base64Encode rest

/-- `dataURL` from `openai.go`. -/
def dataURL (data : List Nat) : String :=
  "data:image/png;base64," ++ base64Encode data

/-- `computerCall` from `openai.go` (lines 346-371): perform the action's
primitives, then always capture a fresh screenshot and the current URL;
the only error source is the screenshot capture, whose error is wrapped
as in `fmt.Errorf("error taking screenshot: %w", err)`. -/
def computerCall {σ : Type} (env : BrowserEnv σ) (s : σ) (a : Action) :
    Except String (ComputerOutput × σ) :=
  match env.screenshot (actionStepState env a s) with
  | .error e => .error ("error taking screenshot: " ++ e)
  | .ok data =>
    .ok (⟨"input_image", dataURL data, env.getCurrentUrl (actionStepState env a s)⟩,
      actionStepState env a s)

/-- The mutable locals of one `BrowserUse` iteration that survive between
turns: the page state and the Go variables `responseID`, `callID`,
`callResp`. -/
structure LoopState (σ : Type) where
  browserState : σ
  responseID : String
  callID : String
  callResp : Option ComputerOutput

/-- The per-turn scan locals: page state, the Go variables `callID` and
`callResp` as updated so far, and (ghost) the actions dispatched so far
in this turn, in order. -/
structure ScanState (σ : Type) where
  s : σ
  callID : String
  callResp : Option ComputerOutput
  executed : List Action

/-- Result of scanning one response's output items: a fatal action error
(`computerCall` failed), the `o.Content[0]` index-out-of-range panic, or
normal completion with the final-output string (`""` when no assistant
content item was found, as in Go). -/
inductive ScanOutcome (σ : Type) where
  | fail (executed : List Action) (msg : String)
  | panicked (executed : List Action)
  | done (st : ScanState σ) (finalOutput : String)

/-- The inner `for _, o := range response.Output` loop of `BrowserUse`
(`openai.go` lines 314-333): each item carrying an action is dispatched
via `computerCall` (updating `callID`/`callResp`); an item with non-nil
content and role `assistant` sets `finalOutput` to `o.Content[0]` and
breaks (indexing an empty content list panics). -/
def scanOutput {σ : Type} (env : BrowserEnv σ) :
    List OutputItem → ScanState σ → ScanOutcome σ
  | [], st => .done st ""
  | o :: rest, st =>
    let afterAction : Except String (ScanState σ) :=
      match o.action with
      | none => .ok st
      | some a =>
        match computerCall env st.s a with
        | .error e => .error e
        | .ok (out, s1) => .ok ⟨s1, o.callID, some out, st.executed ++ [a]⟩
    match afterAction with
    | .error e => .fail st.executed e
    | .ok st1 =>
      match o.content with
      | none => scanOutput env rest st1
      | some cs =>
        if o.role = "assistant" then
          match cs with
          | [] => .panicked st1.executed
          | c :: _ => .done st1 c
        else scanOutput env rest st1

/-- Request construction of `BrowserUse` (`openai.go` lines 290-302): the
goal message while `responseID` is empty, otherwise a
`computer_call_output` item carrying the stored `callID` and `callResp`. -/
def buildMessages {σ : Type} (instruction : String) (st : LoopState σ) : List Input :=
  if st.responseID = "" then
    [⟨"", "", none, "user", instruction⟩]
  else
    [⟨"computer_call_output", st.callID, st.callResp, "", ""⟩]

/-- How one `BrowserUse` invocation ends, with the data Go attaches to
that exit (error causes before their `fmt.Errorf` wrapping). -/
inductive ExitKind where
  | openError (msg : String)
  | cancelled (turn : Nat)
  | apiError (turn : Nat) (msg : String)
  | actionError (turn : Nat) (msg : String)
  | panicked (turn : Nat)
  | finalAnswer (turn : Nat) (answer : String)
  | exhausted
  deriving DecidableEq, Repr

/-- The value the Go caller of `BrowserUse` observes: `none` when the run
panics (no return value at all), `some none` for a nil error, and
`some (some e)` for a non-nil error, with the `fmt.Errorf` wrapping of
`openai.go`.  Both the final-answer and the exhaustion exits return nil. -/
def goReturn : ExitKind → Option (Option String)
  | .openError m => some (some ("error opening browser: " ++ m))
  | .cancelled _ => some (some "context canceled")
  | .apiError _ m => some (some ("error calling OpenAI API: " ++ m))
  | .actionError _ m => some (some ("error executing browser action: " ++ m))
  | .panicked _ => none
  | .finalAnswer _ _ => some none
  | .exhausted => some none

/-- Observable events of one run: the initial `browser.Open`, each
`Responses` request (with the turn index, the `responseID` argument and
the input items), each dispatched action, and `browser.Close`. -/
inductive Event where
  | opened (url : String)
  | requested (turn : Nat) (responseID : String) (input : List Input)
  | executed (turn : Nat) (a : Action)
  | closed
  deriving DecidableEq, Repr

/-- The external world of one run: the browser provider, the initial page
state after `NewBrowser`, `Browser.Open` (which may fail), the
per-turn-start `ctx.Done()` poll result, and the `Responses` call (the
service's reply for the request of turn `i`). -/
structure LoopEnv (σ : Type) where
  browser : BrowserEnv σ
  initState : σ
  openUrl : String → σ → Except String σ
  cancelled : Nat → Bool
  responses : Nat → String → List Input → Except String Response

/-- The `for i := 0; i < maxTurns; i++` loop of `BrowserUse` (`openai.go`
lines 283-340), with `fuel = maxTurns - i`: check cancellation, build the
request, call the service, scan the output items, stop on a non-empty
`finalOutput`, otherwise continue with the updated state.  Returns the
exit kind and the events of the remaining turns. -/
def runLoop {σ : Type} (env : LoopEnv σ) (instruction : String) :
    Nat → Nat → LoopState σ → ExitKind × List Event
  | 0, _, _ => (.exhausted, [])
  | fuel + 1, i, st =>
    if env.cancelled i then (.cancelled i, [])
    else
      match env.responses i st.responseID (buildMessages instruction st) with
      | .error e => (.apiError i e, [.requested i st.responseID (buildMessages instruction st)])
      | .ok response =>
        match scanOutput env.browser response.output ⟨st.browserState, st.callID, st.callResp, []⟩ with
        | .fail ex e =>
          (.actionError i e,
            .requested i st.responseID (buildMessages instruction st) :: ex.map (Event.executed i))
        | .panicked ex =>
          (.panicked i,
            .requested i st.responseID (buildMessages instruction st) :: ex.map (Event.executed i))
        | .done sst finalOutput =>
          if finalOutput = "" then
            match runLoop env instruction fuel (i + 1) ⟨sst.s, response.id, sst.callID, sst.callResp⟩ with
            | (exit, rest) =>
              (exit, (Event.requested i st.responseID (buildMessages instruction st)
                :: sst.executed.map (Event.executed i)) ++ rest)
          else (.finalAnswer i finalOutput,
            Event.requested i st.responseID (buildMessages instruction st)
              :: sst.executed.map (Event.executed i))

/-- `BrowserUse` from `openai.go` (lines 269-343): open the page (failure
returns before `defer browser.Close()` is registered, so no close event is
emitted on that path), run the loop, then the deferred `Close` runs on
every remaining exit path, including the panic. -/
def BrowserUse {σ : Type} (env : LoopEnv σ) (url instruction : String)
    (maxTurns : Nat) : ExitKind × List Event :=
  match env.openUrl url env.initState with
  | .error e => (.openError e, [])
  | .ok s0 =>
    match runLoop env instruction maxTurns 0 ⟨s0, "", "", none⟩ with
    | (exit, evs) => (exit, .opened url :: (evs ++ [.closed]))

/-! ### Concrete test environments (fake collaborators used by the theorems) -/

/-- A deterministic fake browser provider over the trivial page state:
every primitive succeeds, the screenshot is always the bytes `[3, 1, 4]`,
and the current URL is constant. -/
def fixedBrowser : BrowserEnv Unit where
  typeText := fun _ _ => ()
  click := fun _ _ _ _ => ()
  scroll := fun _ _ _ _ _ => ()
  press := fun _ _ => ()
  screenshot := fun _ => .ok [3, 1, 4]
  getCurrentUrl := fun _ => "https://example.com/"

/-- The observation `computerCall` produces under `fixedBrowser`. -/
def constObs : ComputerOutput :=
  ⟨"input_image", dataURL [3, 1, 4], "https://example.com/"⟩

/-- A `computer_call` output item carrying action `a` and call ID `cid`. -/
def actionItem (a : Action) (cid : String) : OutputItem :=
  ⟨"computer_call", "", cid, "", some a, "", none, []⟩

/-- A `message` output item with role `assistant` and one content element. -/
def answerItem (c : String) : OutputItem :=
  ⟨"message", "", "", "", none, "assistant", some [c], []⟩

/-- A concrete click action. -/
def clickA : Action := ⟨"click", [], "left", "", 10, 20, 0, 0⟩

/-- A second, distinct concrete click action. -/
def clickB : Action := ⟨"click", [], "left", "", 30, 40, 0, 0⟩

/-- A concrete action of the unimplemented kind `drag`. -/
def dragAct : Action := ⟨"drag", [], "", "", 1, 2, 0, 0⟩

/-- Fake service that never answers: every response is `resp` with an
empty output list. -/
def noAnswerEnv : LoopEnv Unit where
  browser := fixedBrowser
  initState := ()
  openUrl := fun _ s => .ok s
  cancelled := fun _ => false
  responses := fun _ _ _ => .ok ⟨"resp", []⟩

/-- Fake service whose first (and every) response is a lone assistant
answer item with text `hello`. -/
def helloEnv : LoopEnv Unit where
  browser := fixedBrowser
  initState := ()
  openUrl := fun _ s => .ok s
  cancelled := fun _ => false
  responses := fun _ _ _ => .ok ⟨"resp", [answerItem "hello"]⟩

/-- Fake service whose first response carries two action items (and no
assistant content); later responses are empty. -/
def twoActionEnv : LoopEnv Unit where
  browser := fixedBrowser
  initState := ()
  openUrl := fun _ s => .ok s
  cancelled := fun _ => false
  responses := fun i _ _ =>
    if i = 0 then .ok ⟨"resp", [actionItem clickA "c1", actionItem clickB "c2"]⟩
    else .ok ⟨"resp", []⟩

/-- Fake service whose first response carries one action with call ID
`c1` and whose later responses carry neither action nor content. -/
def staleEnv : LoopEnv Unit where
  browser := fixedBrowser
  initState := ()
  openUrl := fun _ s => .ok s
  cancelled := fun _ => false
  responses := fun i _ _ =>
    if i = 0 then .ok ⟨"resp", [actionItem clickA "c1"]⟩
    else .ok ⟨"resp", []⟩

/-- Fake service whose every response is one action item (parametrized by
the per-turn action and call ID), so every turn executes an action. -/
def chainEnv (acts : Nat → Action) (cids : Nat → String) : LoopEnv Unit where
  browser := fixedBrowser
  initState := ()
  openUrl := fun _ s => .ok s
  cancelled := fun _ => false
  responses := fun i _ _ => .ok ⟨"resp", [actionItem (acts i) (cids i)]⟩

/-- Fake service whose first response holds an action item, then an
assistant answer item, then a further action item. -/
def mixedEnv (a : Action) (cid c : String) (extra : Action) : LoopEnv Unit where
  browser := fixedBrowser
  initState := ()
  openUrl := fun _ s => .ok s
  cancelled := fun _ => false
  responses := fun _ _ _ => .ok ⟨"resp", [actionItem a cid, answerItem c, actionItem extra "cx"]⟩

/-- Fake service returning an assistant item whose content list is
non-nil but empty. -/
def emptyContentEnv : LoopEnv Unit where
  browser := fixedBrowser
  initState := ()
  openUrl := fun _ s => .ok s
  cancelled := fun _ => false
  responses := fun _ _ _ => .ok ⟨"resp", [⟨"message", "", "", "", none, "assistant", some [], []⟩]⟩

/-- Environment whose `Open` fails. -/
def openFailEnv : LoopEnv Unit where
  browser := fixedBrowser
  initState := ()
  openUrl := fun _ _ => .error "boom"
  cancelled := fun _ => false
  responses := fun _ _ _ => .ok ⟨"resp", []⟩

/-- Environment cancelled from the start. -/
def cancelEnv : LoopEnv Unit where
  browser := fixedBrowser
  initState := ()
  openUrl := fun _ s => .ok s
  cancelled := fun _ => true
  responses := fun _ _ _ => .ok ⟨"resp", []⟩

/-- Whether an event is a request one of whose input items is a
`computer_call_output` carrying the call reference `c`. -/
def usesCallRef (c : String) : Event → Bool
  | .requested _ _ msgs => msgs.any fun m => m.type == "computer_call_output" && m.callID == c
  | _ => false

/-- Whether an event is a service request. -/
def isRequest : Event → Bool
  | .requested _ _ _ => true
  | _ => false

/-- The expected request items of turn `i` under `noAnswerEnv`: the goal
on turn 0, then a `computer_call_output` with empty call ID and nil
output (no action was ever executed). -/
def noAnswerMsgs (g : String) : Nat → List Input
  | 0 => [⟨"", "", none, "user", g⟩]
  | _ + 1 => [⟨"computer_call_output", "", none, "", ""⟩]

/-- The expected `responseID` argument of the request of turn `i` under a
fake service whose every response has ID `resp`. -/
def chainRid : Nat → String
  | 0 => ""
  | _ + 1 => "resp"

/-- The expected stored call ID at the start of turn `i` under
`chainEnv acts cids`. -/
def chainCid (cids : Nat → String) : Nat → String
  | 0 => ""
  | i + 1 => cids i

/-- The expected stored observation at the start of turn `i` under
`chainEnv`. -/
def chainCr : Nat → Option ComputerOutput
  | 0 => none
  | _ + 1 => some constObs

/-- The expected request items of turn `i` under `chainEnv acts cids`:
the goal on turn 0, then the observation of turn `i - 1`'s action tagged
with that action's call ID. -/
def chainMsgs (g : String) (cids : Nat → String) : Nat → List Input
  | 0 => [⟨"", "", none, "user", g⟩]
  | i + 1 => [⟨"computer_call_output", cids i, some constObs, "", ""⟩]

/-- The two events of turn `i` under `chainEnv acts cids`. -/
def chainStep (g : String) (acts : Nat → Action) (cids : Nat → String) (i : Nat) : List Event :=
  [.requested i (chainRid i) (chainMsgs g cids i), .executed i (acts i)]

/-! ### Theorems -/

/-- C1, counterexample: a response whose output carries two action items
(`clickA` then `clickB`) leads the loop to dispatch **both**: the second
action item is also executed, refuting that later action items in the
same turn are not separately executed. -/
theorem two_actions_both_executed :
    Event.executed 0 clickB ∈ (BrowserUse twoActionEnv "u" "g" 1).2 ∧
    Event.executed 0 clickA ∈ (BrowserUse twoActionEnv "u" "g" 1).2 := by
  decide

/-- C2, counterexample: a run that exhausts its turn budget and a run
that ends with the final answer `hello` return the identical value to the
Go caller (a nil error), so the caller cannot distinguish exhaustion from
the final-answer outcome by the loop's result. -/
theorem exhaustion_indistinguishable :
    (BrowserUse noAnswerEnv "u" "g" 2).1 = .exhausted ∧
    (BrowserUse helloEnv "u" "g" 2).1 = .finalAnswer 0 "hello" ∧
    goReturn (BrowserUse noAnswerEnv "u" "g" 2).1
      = goReturn (BrowserUse helloEnv "u" "g" 2).1 := by
  decide

/-- C3: when `Open` fails, the run aborts with the open error and the
trace contains no close event — the browser connected by `NewBrowser` is
never closed, because `defer browser.Close()` is only registered after
the `Open` error return; on a normal exhaustion run, by contrast, the
browser is closed exactly once. -/
theorem open_failure_skips_close :
    BrowserUse openFailEnv "u" "g" 3 = (.openError "boom", []) ∧
    Event.closed ∉ (BrowserUse openFailEnv "u" "g" 3).2 ∧
    (BrowserUse noAnswerEnv "u" "g" 2).2.count Event.closed = 1 := by
  decide

/-- C4, counterexample: when the response of turn 1 carries no action,
turn 2's request re-sends the observation still stored from turn 0,
tagged with the same pending call reference `c1` — the reference is
consumed twice, refuting exactly-once consumption. -/
theorem stale_call_reference_reused :
    ((BrowserUse staleEnv "u" "g" 3).2.countP (usesCallRef "c1")) = 2 := by
  decide

/-- C10: a response whose single output item has role `assistant` and a
non-nil but empty content list drives the loop into `o.Content[0]`, the
index-out-of-range panic: the run aborts by panic (`goReturn` is `none`:
no return value at all), not with a termination result or error value. -/
theorem empty_assistant_content_panics :
    (BrowserUse emptyContentEnv "u" "g" 5).1 = .panicked 0 ∧
    goReturn (BrowserUse emptyContentEnv "u" "g" 5).1 = none := by
  decide

/-- Skipping an unrecognized key leaves the page state unaffected. -/
theorem keypressState_skip {σ : Type} (env : BrowserEnv σ) (k : String)
    (hk : keyLookup k = none) :
    ∀ (ks1 ks2 : List String) (st : σ),
      keypressState env (ks1 ++ k :: ks2) st = keypressState env (ks1 ++ ks2) st := by
  intro ks1
  induction ks1 with
  | nil => intro ks2 st; simp [keypressState, hk]
  | cons k1 rest ih =>
    intro ks2 st
    simp only [List.cons_append, keypressState]
    cases h1 : keyLookup k1 with
    | none => exact ih ks2 st
    | some pk => exact ih ks2 (env.press pk st)

/-- Skipping an unrecognized key only inserts its log line into the
primitive events of the batch. -/
theorem keypressPrims_skip (k : String) (hk : keyLookup k = none) :
    ∀ (ks1 ks2 : List String),
      keypressPrims (ks1 ++ k :: ks2)
        = keypressPrims ks1 ++ PrimEvent.keyNotImplemented k :: keypressPrims ks2 := by
  intro ks1
  induction ks1 with
  | nil => intro ks2; simp [keypressPrims, hk]
  | cons k1 rest ih =>
    intro ks2
    simp only [List.cons_append, keypressPrims]
    cases h1 : keyLookup k1 with
    | none => simp [ih ks2]
    | some pk => simp [ih ks2]

/-- C9: the key names `Enter` and `return` (compared case-insensitively)
translate to the same physical key, and an unrecognized key name anywhere
in a key-press batch is skipped — the remaining key-presses of the batch,
both their page effect and their primitive events, are unaffected. -/
theorem enter_return_same_key_unknown_skipped :
    (∀ s t : String, lowerString s = "enter" → lowerString t = "return" →
      keyLookup s = some PhysKey.enter ∧ keyLookup t = some PhysKey.enter) ∧
    (∀ (σ : Type) (env : BrowserEnv σ) (st : σ) (ks1 : List String) (k : String)
        (ks2 : List String), keyLookup k = none →
      keypressState env (ks1 ++ k :: ks2) st = keypressState env (ks1 ++ ks2) st ∧
      keypressPrims (ks1 ++ k :: ks2)
        = keypressPrims ks1 ++ PrimEvent.keyNotImplemented k :: keypressPrims ks2) := by
  constructor
  · intro s t hs ht
    constructor
    · simp [keyLookup, hs]
    · simp [keyLookup, ht]
  · intro σ env st ks1 k ks2 hk
    exact ⟨keypressState_skip env k hk ks1 ks2 st, keypressPrims_skip k hk ks1 ks2⟩

/-- Witness for C9 at concrete keys: `Enter` and `return` both map to the
enter key, and `foobar` inside a batch is skipped without disturbing the
rest of the batch. -/
theorem enter_return_same_key_unknown_skipped_witness :
    (keyLookup "Enter" = some PhysKey.enter ∧ keyLookup "return" = some PhysKey.enter) ∧
    (keypressState fixedBrowser (["Tab"] ++ "foobar" :: ["Down"]) ()
        = keypressState fixedBrowser (["Tab"] ++ ["Down"]) () ∧
      keypressPrims (["Tab"] ++ "foobar" :: ["Down"])
        = keypressPrims ["Tab"] ++ PrimEvent.keyNotImplemented "foobar" :: keypressPrims ["Down"]) :=
  ⟨enter_return_same_key_unknown_skipped.1 "Enter" "return" (by decide) (by decide),
    enter_return_same_key_unknown_skipped.2 Unit fixedBrowser () ["Tab"] "foobar" ["Down"]
      (by decide)⟩

/-- C6: for every action, of whatever kind, the dispatcher fails exactly
when capturing the screenshot at the post-action state fails (the error
is returned at once, with no retry), and on success the single returned
observation carries the screenshot just captured at the post-action state
and that state's current URL. -/
theorem observation_iff_screenshot (σ : Type) (env : BrowserEnv σ) (s : σ) (a : Action) :
    ((∃ e, computerCall env s a = .error e) ↔
      ∃ e, env.screenshot (actionStepState env a s) = .error e) ∧
    (∀ out s1, computerCall env s a = .ok (out, s1) →
      s1 = actionStepState env a s ∧
      out.currentURL = env.getCurrentUrl s1 ∧
      out.type = "input_image" ∧
      ∃ data, env.screenshot s1 = .ok data ∧ out.imageURL = dataURL data) := by
  cases h : env.screenshot (actionStepState env a s) with
  | error e =>
    constructor
    · simp [computerCall, h]
    · intro out s1 hok
      simp [computerCall, h] at hok
  | ok data =>
    constructor
    · simp [computerCall, h]
    · intro out s1 hok
      simp only [computerCall, h, Except.ok.injEq, Prod.mk.injEq] at hok
      obtain ⟨ho, hs1⟩ := hok
      subst hs1
      subst ho
      exact ⟨rfl, rfl, rfl, data, h, rfl⟩

/-- Witness for C6 at a concrete click under `fixedBrowser`. -/
theorem observation_iff_screenshot_witness :
    (() = actionStepState fixedBrowser clickA ()) ∧
    constObs.currentURL = fixedBrowser.getCurrentUrl () ∧
    constObs.type = "input_image" ∧
    ∃ data, fixedBrowser.screenshot () = .ok data ∧ constObs.imageURL = dataURL data :=
  (observation_iff_screenshot Unit fixedBrowser () clickA).2 constObs () rfl

/-- C7: an action whose kind is outside
`{screenshot, type, click, scroll, keypress, wait}` performs no browser
primitive (no state change, no primitive event), and the dispatcher then
behaves exactly as for an explicit `screenshot` request: the standard
screenshot/location capture, with no error introduced by the unknown kind. -/
theorem unknown_action_is_noop (σ : Type) (env : BrowserEnv σ) (s : σ) (a : Action)
    (h : a.type ∉ (["screenshot", "type", "click", "scroll", "keypress", "wait"] : List String)) :
    actionStepState env a s = s ∧ actionPrims a = [] ∧
    computerCall env s a = computerCall env s { a with type := "screenshot" } := by
  simp only [List.mem_cons, List.not_mem_nil, or_false, not_or] at h
  obtain ⟨h1, h2, h3, h4, h5, h6⟩ := h
  refine ⟨?_, ?_, ?_⟩
  · simp [actionStepState, h1, h2, h3, h4, h5, h6]
  · simp [actionPrims, h1, h2, h3, h4, h5, h6]
  · simp [computerCall, actionStepState, h1, h2, h3, h4, h5, h6]

/-- Witness for C7 at the unimplemented kind `drag`. -/
theorem unknown_action_is_noop_witness :
    actionStepState fixedBrowser dragAct () = () ∧ actionPrims dragAct = [] ∧
    computerCall fixedBrowser () dragAct
      = computerCall fixedBrowser () { dragAct with type := "screenshot" } :=
  unknown_action_is_noop Unit fixedBrowser () dragAct (by decide)

/-- A cancelled exit can only originate from the turn-start poll: whenever
the loop ends cancelled at turn `j`, the context was flagged at the start
of turn `j`, and `j` is no earlier than the entry turn. -/
theorem runLoop_cancelled_flagged {σ : Type} (env : LoopEnv σ) (instruction : String) :
    ∀ (fuel i : Nat) (st : LoopState σ) (j : Nat) (evs : List Event),
      runLoop env instruction fuel i st = (.cancelled j, evs) →
      env.cancelled j = true ∧ i ≤ j := by
  intro fuel
  induction fuel with
  | zero =>
    intro i st j evs h
    simp [runLoop] at h
  | succ fuel ih =>
    intro i st j evs h
    rw [runLoop] at h
    split at h
    next hc =>
      obtain ⟨h1, _⟩ := Prod.mk.injEq .. |>.mp h
      obtain rfl := ExitKind.cancelled.injEq .. |>.mp h1
      exact ⟨hc, Nat.le_refl _⟩
    next hc =>
      split at h
      next e heq => simp at h
      next response heq =>
        split at h
        next ex e hs => simp at h
        next ex hs => simp at h
        next sst finalOutput hs =>
          split at h
          next hf =>
            split at h
            next exit rest hrec =>
              obtain ⟨h1, _⟩ := Prod.mk.injEq .. |>.mp h
              subst h1
              obtain ⟨hflag, hle⟩ := ih (i + 1) _ j rest hrec
              exact ⟨hflag, Nat.le_of_succ_le hle⟩
          next hf => simp at h

/-- C8: on every iteration the controller polls the cancellation flag
before doing any work of that turn — if the flag is set at turn `i`, the
loop ends at once with the cancellation result and performs no request
and no action, however much fuel remains; conversely a cancelled exit
only ever arises from that turn-start poll finding the flag set. -/
theorem cancellation_checked_at_turn_start (σ : Type) (env : LoopEnv σ)
    (instruction : String) (fuel i : Nat) (st : LoopState σ) :
    (env.cancelled i = true →
      runLoop env instruction (fuel + 1) i st = (.cancelled i, [])) ∧
    (∀ j evs, runLoop env instruction fuel i st = (.cancelled j, evs) →
      env.cancelled j = true ∧ i ≤ j) := by
  constructor
  · intro hc
    rw [runLoop, if_pos hc]
  · intro j evs h
    exact runLoop_cancelled_flagged env instruction fuel i st j evs h

/-- Witness for C8 on a context cancelled from the start: the loop with
five turns of budget ends immediately with the cancellation result and an
empty trace. -/
theorem cancellation_checked_at_turn_start_witness :
    runLoop cancelEnv "g" 6 0 ⟨(), "", "", none⟩ = (.cancelled 0, []) ∧
    cancelEnv.cancelled 0 = true ∧ 0 ≤ 0 := by
  refine ⟨(cancellation_checked_at_turn_start Unit cancelEnv "g" 5 0 ⟨(), "", "", none⟩).1 rfl, ?_⟩
  exact (cancellation_checked_at_turn_start Unit cancelEnv "g" 6 0 ⟨(), "", "", none⟩).2 0 []
    ((cancellation_checked_at_turn_start Unit cancelEnv "g" 5 0 ⟨(), "", "", none⟩).1 rfl)

/-- C5: when a response's first output item carries an action and its
second item is an assistant answer, the action is dispatched against the
browser (the `executed` event precedes the close in the trace) and the
loop then terminates with the final answer at the very item where the
assistant content is found — a further action item after the answer item
is never executed, however many turns of budget remain. -/
theorem action_executed_before_answer (a : Action) (cid c : String) (extra : Action)
    (url g : String) (n : Nat) (hc : c ≠ "") :
    BrowserUse (mixedEnv a cid c extra) url g (n + 1) =
      (.finalAnswer 0 c,
        [.opened url, .requested 0 "" [⟨"", "", none, "user", g⟩],
          .executed 0 a, .closed]) := by
  simp [BrowserUse, mixedEnv, runLoop, buildMessages, scanOutput, computerCall,
    fixedBrowser, actionItem, answerItem, hc]

/-- Witness for C5 at a concrete click followed by the answer `hello`. -/
theorem action_executed_before_answer_witness :
    BrowserUse (mixedEnv clickA "c1" "hello" clickB) "u" "g" 4 =
      (.finalAnswer 0 "hello",
        [.opened "u", .requested 0 "" [⟨"", "", none, "user", "g"⟩],
          .executed 0 clickA, .closed]) :=
  action_executed_before_answer clickA "c1" "hello" clickB "u" "g" 3 (by decide)

/-- C1, amended: while no assistant-content item intervenes and the
screenshot capture succeeds, the scan of a response's output dispatches
**every** item carrying an action, in response order — not merely the
first one. -/
theorem scan_executes_every_action (σ : Type) (env : BrowserEnv σ) :
    ∀ (items : List OutputItem) (s : σ) (cid : String) (cr : Option ComputerOutput)
      (acc : List Action),
    (∀ o ∈ items, o.content = none) →
    (∀ st, ∃ data, env.screenshot st = .ok data) →
    ∃ st1, scanOutput env items ⟨s, cid, cr, acc⟩ = .done st1 "" ∧
      st1.executed = acc ++ items.filterMap (fun o => o.action) := by
  intro items
  induction items with
  | nil =>
    intro s cid cr acc _ _
    exact ⟨⟨s, cid, cr, acc⟩, rfl, by simp⟩
  | cons o rest ih =>
    intro s cid cr acc hcont hshot
    have hco : o.content = none := hcont o (by simp)
    have hcr : ∀ o' ∈ rest, o'.content = none := fun o' h' => hcont o' (by simp [h'])
    cases ha : o.action with
    | none =>
      obtain ⟨st1, h1, h2⟩ := ih s cid cr acc hcr hshot
      refine ⟨st1, ?_, ?_⟩
      · simp [scanOutput, ha, hco, h1]
      · simp [h2, List.filterMap_cons, ha]
    | some a =>
      obtain ⟨data, hdata⟩ := hshot (actionStepState env a s)
      obtain ⟨st1, h1, h2⟩ := ih (actionStepState env a s) o.callID
        (some ⟨"input_image", dataURL data, env.getCurrentUrl (actionStepState env a s)⟩)
        (acc ++ [a]) hcr hshot
      refine ⟨st1, ?_, ?_⟩
      · simp [scanOutput, ha, computerCall, hdata, hco, h1]
      · simp [h2, List.filterMap_cons, ha]

/-- Witness for C1's amended statement: both action items of a two-action
response are dispatched, in order. -/
theorem scan_executes_every_action_witness :
    ∃ st1, scanOutput fixedBrowser [actionItem clickA "c1", actionItem clickB "c2"]
        ⟨(), "", none, []⟩ = .done st1 "" ∧
      st1.executed
        = [] ++ [actionItem clickA "c1", actionItem clickB "c2"].filterMap (fun o => o.action) :=
  scan_executes_every_action Unit fixedBrowser [actionItem clickA "c1", actionItem clickB "c2"]
    () "" none [] (by decide) (fun _ => ⟨[3, 1, 4], rfl⟩)

/-- `noAnswerEnv` never reports cancellation. -/
theorem noAnswerEnv_cancelled (i : Nat) : noAnswerEnv.cancelled i = false := rfl

/-- `noAnswerEnv` always replies with the empty-output response `resp`. -/
theorem noAnswerEnv_responses (i : Nat) (rid : String) (m : List Input) :
    noAnswerEnv.responses i rid m = .ok ⟨"resp", []⟩ := rfl

/-- `noAnswerEnv` opens every URL successfully. -/
theorem noAnswerEnv_openUrl (u : String) (s : Unit) :
    noAnswerEnv.openUrl u s = .ok s := rfl

/-- Closed form of the loop under `noAnswerEnv`: starting at turn `i`
with the state the loop reaches there, it spends all remaining fuel, one
request per turn, and exits exhausted. -/
theorem runLoop_noAnswer (g : String) :
    ∀ (fuel i : Nat),
      runLoop noAnswerEnv g fuel i ⟨(), if i = 0 then "" else "resp", "", none⟩ =
        (.exhausted, (List.range' i fuel).map fun j =>
          .requested j (if j = 0 then "" else "resp") (noAnswerMsgs g j)) := by
  intro fuel
  induction fuel with
  | zero => intro i; simp [runLoop]
  | succ fuel ih =>
    intro i
    rw [runLoop, List.range'_succ]
    have hrec := ih (i + 1)
    simp only [Nat.succ_ne_zero, reduceIte] at hrec
    cases i with
    | zero =>
      simp [noAnswerEnv_cancelled, noAnswerEnv_responses, scanOutput, buildMessages,
        noAnswerMsgs, hrec]
    | succ k =>
      simp [noAnswerEnv_cancelled, noAnswerEnv_responses, scanOutput, buildMessages,
        noAnswerMsgs, hrec]

/-- C2, amended: a service that never produces a final answer drives the
loop through exactly `n` request/response cycles (one `requested` event
per turn index below `n`) and the run terminates with the exhaustion
outcome, whose Go return value is nil — not an error, but also the very
value the final-answer outcome returns. -/
theorem exhaustion_after_max_turns (url g : String) (n : Nat) :
    BrowserUse noAnswerEnv url g n =
      (.exhausted, .opened url ::
        (((List.range n).map fun j =>
          .requested j (if j = 0 then "" else "resp") (noAnswerMsgs g j)) ++ [.closed])) ∧
    goReturn (BrowserUse noAnswerEnv url g n).1 = some none ∧
    (BrowserUse noAnswerEnv url g n).2.countP isRequest = n := by
  have h0 := runLoop_noAnswer g n 0
  simp only [reduceIte] at h0
  have hmain : BrowserUse noAnswerEnv url g n =
      (.exhausted, .opened url ::
        (((List.range n).map fun j =>
          .requested j (if j = 0 then "" else "resp") (noAnswerMsgs g j)) ++ [.closed])) := by
    rw [List.range_eq_range']
    simp [BrowserUse, noAnswerEnv_openUrl, h0]
  refine ⟨hmain, by rw [hmain]; rfl, ?_⟩
  rw [hmain]
  have hcomp : (isRequest ∘ fun j : Nat =>
      Event.requested j (if j = 0 then "" else "resp") (noAnswerMsgs g j)) = fun _ => true :=
    funext fun j => rfl
  simp [List.countP_cons, List.countP_append, List.countP_map, hcomp, List.countP_true,
    isRequest]

/-- `fixedBrowser` always captures the screenshot `[3, 1, 4]`. -/
theorem fixedBrowser_screenshot (s : Unit) : fixedBrowser.screenshot s = .ok [3, 1, 4] := rfl

/-- `fixedBrowser` always reports the same current URL. -/
theorem fixedBrowser_getCurrentUrl (s : Unit) :
    fixedBrowser.getCurrentUrl s = "https://example.com/" := rfl

/-- `chainEnv` never reports cancellation. -/
theorem chainEnv_cancelled (acts : Nat → Action) (cids : Nat → String) (i : Nat) :
    (chainEnv acts cids).cancelled i = false := rfl

/-- `chainEnv` replies to the request of turn `i` with one action item. -/
theorem chainEnv_responses (acts : Nat → Action) (cids : Nat → String) (i : Nat)
    (rid : String) (m : List Input) :
    (chainEnv acts cids).responses i rid m = .ok ⟨"resp", [actionItem (acts i) (cids i)]⟩ := rfl

/-- `chainEnv` opens every URL successfully. -/
theorem chainEnv_openUrl (acts : Nat → Action) (cids : Nat → String) (u : String) (s : Unit) :
    (chainEnv acts cids).openUrl u s = .ok s := rfl

/-- The browser of `chainEnv` is `fixedBrowser`. -/
theorem chainEnv_browser (acts : Nat → Action) (cids : Nat → String) :
    (chainEnv acts cids).browser = fixedBrowser := rfl

/-- Closed form of the loop under `chainEnv`: starting at turn `i` with
the state the loop reaches there, every remaining turn issues one request
and executes that turn's action, and the loop exits exhausted. -/
theorem runLoop_chain (g : String) (acts : Nat → Action) (cids : Nat → String) :
    ∀ (fuel i : Nat),
      runLoop (chainEnv acts cids) g fuel i ⟨(), chainRid i, chainCid cids i, chainCr i⟩ =
        (.exhausted, (List.range' i fuel).flatMap (chainStep g acts cids)) := by
  intro fuel
  induction fuel with
  | zero => intro i; simp [runLoop]
  | succ fuel ih =>
    intro i
    rw [runLoop, List.range'_succ]
    have hrec := ih (i + 1)
    simp only [chainRid, chainCid, chainCr] at hrec
    cases i with
    | zero =>
      simp [chainEnv_cancelled, chainEnv_responses, chainEnv_browser, chainRid, chainCid,
        chainCr, scanOutput, buildMessages, computerCall, fixedBrowser_screenshot,
        fixedBrowser_getCurrentUrl, actionItem, chainStep, chainMsgs, constObs]
      simp only [Nat.zero_add] at hrec
      rw [show actionStepState fixedBrowser (acts 0) () = () from rfl,
        show (⟨"input_image", dataURL [3, 1, 4], "https://example.com/"⟩ : ComputerOutput)
          = constObs from rfl, hrec]
      exact ⟨rfl, rfl⟩
    | succ k =>
      simp [chainEnv_cancelled, chainEnv_responses, chainEnv_browser, chainRid, chainCid,
        chainCr, scanOutput, buildMessages, computerCall, fixedBrowser_screenshot,
        fixedBrowser_getCurrentUrl, actionItem, chainStep, chainMsgs, constObs]
      rw [show actionStepState fixedBrowser (acts (k + 1)) () = () from rfl,
        show (⟨"input_image", dataURL [3, 1, 4], "https://example.com/"⟩ : ComputerOutput)
          = constObs from rfl, hrec]
      exact ⟨rfl, rfl⟩

/-- C4, amended: provided every response carries an action, the very
first request is the natural-language goal, and the request of each
later turn `i + 1` is exactly the observation of turn `i`'s executed
action tagged with that action's pending call reference — visible in the
closed-form trace, where turn `i + 1`'s `requested` event carries the
single `computer_call_output` item with call ID `cids i`.  (When a turn
carries no action, the previous reference is re-sent instead — see the
counterexample.) -/
theorem next_request_carries_prior_call (acts : Nat → Action) (cids : Nat → String)
    (url g : String) (n : Nat) :
    BrowserUse (chainEnv acts cids) url g n =
      (.exhausted, .opened url ::
        (((List.range n).flatMap (chainStep g acts cids)) ++ [.closed])) := by
  have h0 := runLoop_chain g acts cids n 0
  simp only [chainRid, chainCid, chainCr] at h0
  rw [List.range_eq_range']
  simp [BrowserUse, chainEnv_openUrl, h0]

end CompUse
